import Mathlib

/-!
# Verification of the speaker-selection / approval-gating decision core

Shallow embedding of the decision logic of this repository:

* `020_group_chat_workflow.py` — the three speaker selectors
  (`round_robin_selector`, `debate_selector`, `task_based_selector`) over
  `GroupChatStateSnapshot`.
* `025_approval_flows.py` — `ApprovalDecision`, `ApprovalRequest`,
  `ApprovalManager` (`create_request`, `request_approval`),
  `delete_user_with_approval`, `transfer_money_conditional`, and the
  auditor's `generate_report`.

Python's mutable objects are modelled by explicit state passing; the
wall-clock `datetime` fields of the source (`timestamp`, `approved_at`,
`deleted_at`, result timestamps) influence no control flow and are omitted
from the records, as noted at each definition.
-/

namespace MSAF

/-! ## String helpers

The source relies on Python's `str.lower()` and the substring operator
`kw in text`.  Both are embedded structurally so that they reduce in the
kernel.  `lowerChar` lowers ASCII letters, which is all Python's `lower()`
does on every character occurring in the selectors' keyword tables. -/

def lowerChar (c : Char) : Char :=
  if 'A' ≤ c ∧ c ≤ 'Z' then Char.ofNat (c.toNat + 32) else c

/-- Embedding of Python `s.lower()` (ASCII range). -/
def strLower (s : String) : String := String.mk (s.data.map lowerChar)

/-- `charsStart hay needle`: `needle` is a leading segment of `hay`. -/
def charsStart : List Char → List Char → Bool
  | _, [] => true
  | [], _ :: _ => false
  | a :: hs, b :: ns => a == b && charsStart hs ns

/-- `charsHasSub needle hay`: `needle` occurs contiguously inside `hay`. -/
def charsHasSub (needle : List Char) : List Char → Bool
  | [] => charsStart [] needle
  | a :: hs => charsStart (a :: hs) needle || charsHasSub needle hs

/-- Embedding of Python `needle in hay` on strings (substring test). -/
def strHasSub (hay needle : String) : Bool := charsHasSub needle.data hay.data

/-- Embedding of Python `" ".join(xs)`. -/
def joinSpace : List String → String
  | [] => ""
  | [s] => s
  | s :: rest => s ++ " " ++ joinSpace rest

/-! ## Group-chat data model (`GroupChatStateSnapshot`)

From the framework types used by `020_group_chat_workflow.py`: the snapshot
carries `task`, `participants`, `conversation`, `history`, `round_index`
and `pending_agent`; the selectors read only `history`, `round_index` and
`conversation`. -/

structure ChatMessage where
  text : String
deriving DecidableEq

structure GroupChatTurn where
  speaker : String
  text : String
deriving DecidableEq

structure GroupChatStateSnapshot where
  task : ChatMessage
  participants : List (String × String)
  conversation : List ChatMessage
  history : List GroupChatTurn
  round_index : Nat
  pending_agent : Option String
deriving DecidableEq

/-- Embedding of `history[-1].speaker if history else None`. -/
def lastSpeaker (state : GroupChatStateSnapshot) : Option String :=
  state.history.getLast?.map (·.speaker)

/-- The round-robin rotation list of `round_robin_selector`. -/
def rotation : List String := ["researcher", "analyst", "writer"]

/-- Embedding of `round_robin_selector` (020_group_chat_workflow.py,
lines 48–82): 9-round cap, then cyclic rotation
researcher → analyst → writer. -/
def round_robin_selector (state : GroupChatStateSnapshot) : Option String :=
  if 9 ≤ state.round_index then none
  else
    match lastSpeaker state with
    | none => some (rotation.getD 0 "")
    | some sp =>
      if sp ∈ rotation then
        some (rotation.getD ((rotation.indexOf sp + 1) % rotation.length) "")
      else some (rotation.getD 0 "")

/-- Number of prior turns by `name`, embedding
`sum(1 for turn in history if turn.speaker == name)`. -/
def speakerCount (history : List GroupChatTurn) (name : String) : Nat :=
  history.countP (fun t => t.speaker == name)

/-- Embedding of `debate_selector` (020_group_chat_workflow.py,
lines 89–129): optimist/pessimist alternate up to 3 turns each, then the
moderator concludes once, then termination. -/
def debate_selector (state : GroupChatStateSnapshot) : Option String :=
  let history := state.history
  let optimist_count := speakerCount history "optimist"
  let pessimist_count := speakerCount history "pessimist"
  let moderator_count := speakerCount history "moderator"
  if optimist_count < 3 ∨ pessimist_count < 3 then
    if lastSpeaker state = some "optimist" ∧ pessimist_count < 3 then
      some "pessimist"
    else if lastSpeaker state = some "pessimist" ∧ optimist_count < 3 then
      some "optimist"
    else
      some "optimist"
  else if moderator_count = 0 then
    some "moderator"
  else
    none

/-- The specialist identifiers of `task_based_selector`. -/
def specialistIds : List String :=
  ["code_specialist", "data_specialist", "design_specialist"]

/-- Embedding of
`" ".join(msg.text.lower() for msg in conversation[-3:] if msg.text)`:
the lowercased concatenation of the (truthy) texts of the last three
conversation messages. -/
def recentText (conversation : List ChatMessage) : String :=
  joinSpace (((conversation.drop (conversation.length - 3)).filter
    (fun msg => msg.text != "")).map (fun msg => strLower msg.text))

/-- Embedding of `task_based_selector` (020_group_chat_workflow.py,
lines 136–202): 10-round ceiling, coordinator opens, keyword routing to a
specialist after a coordinator turn, hand-back / termination after a
specialist turn, terminal signal on any unrecognized last speaker. -/
def task_based_selector (state : GroupChatStateSnapshot) : Option String :=
  if 10 ≤ state.round_index then none
  else
    let recent_text := recentText state.conversation
    match lastSpeaker state with
    | none => some "coordinator"
    | some sp =>
      if sp = "coordinator" then
        if strHasSub recent_text "code" || strHasSub recent_text "programming"
            || strHasSub recent_text "python" then
          some "code_specialist"
        else if strHasSub recent_text "data" || strHasSub recent_text "analysis"
            || strHasSub recent_text "analytics" then
          some "data_specialist"
        else if strHasSub recent_text "design" || strHasSub recent_text "ui"
            || strHasSub recent_text "ux" then
          some "design_specialist"
        else
          some "code_specialist"
      else if sp ∈ specialistIds then
        if 2 ≤ state.history.countP (fun t => specialistIds.contains t.speaker) then
          none
        else
          some "coordinator"
      else
        none

/-! ## Driving a selector

The orchestration loop (owned by the vendor framework) repeatedly calls
the selector on a fresh snapshot whose `round_index` equals the number of
completed turns, appending each chosen speaker's turn to `history` before
the next call.  `mkSnapshot` builds such a snapshot (the round-robin and
debate selectors never read `task`, `participants` or `conversation`);
`selectorTrace` is the fuel-bounded sequence of chosen speakers. -/

def mkSnapshot (history : List GroupChatTurn) : GroupChatStateSnapshot :=
  { task := ⟨""⟩, participants := [], conversation := [],
    history := history, round_index := history.length, pending_agent := none }

def selectorTrace (sel : GroupChatStateSnapshot → Option String) :
    Nat → List GroupChatTurn → List String
  | 0, _ => []
  | fuel + 1, history =>
    match sel (mkSnapshot history) with
    | none => []
    | some sp => sp :: selectorTrace sel fuel (history ++ [⟨sp, ""⟩])

/-- `optWithin o allowed`: the optional selector result lies in `allowed`
(`none`, the terminal signal, is always acceptable). -/
def optWithin (o : Option String) (allowed : List String) : Bool :=
  match o with
  | none => true
  | some x => allowed.contains x

end MSAF
namespace MSAF

/-! ## Generic lemmas -/

lemma rotation_cycle_mem (k : Nat) :
    rotation.contains (rotation.getD (k % rotation.length) "") = true := by
  have h3 : k % rotation.length < 3 := by
    have := Nat.mod_lt k (y := rotation.length) (by decide)
    simpa using this
  have hc : k % rotation.length = 0 ∨ k % rotation.length = 1 ∨ k % rotation.length = 2 := by
    omega
  rcases hc with h | h | h <;> rw [h] <;> decide

/-- C2: For the round-robin selector with rotation
[researcher, analyst, writer] and cap M = 9: starting from an empty
history and appending each chosen speaker as a turn before the next call,
the selector produces exactly researcher, analyst, writer repeated three
times and then returns the terminal signal; in general `round_index ≥ 9`
yields `none`, an empty history or an unrecognized last speaker yields
the first rotation element, and a recognized last speaker yields the
cyclically following rotation element. -/
theorem round_robin_produces_three_cycles_then_none :
    selectorTrace round_robin_selector 20 [] =
      ["researcher", "analyst", "writer", "researcher", "analyst", "writer",
       "researcher", "analyst", "writer"] ∧
    round_robin_selector (mkSnapshot
      ((["researcher", "analyst", "writer", "researcher", "analyst", "writer",
         "researcher", "analyst", "writer"]).map (fun n => GroupChatTurn.mk n ""))) = none ∧
    ∀ s : GroupChatStateSnapshot,
      (9 ≤ s.round_index → round_robin_selector s = none) ∧
      (s.round_index < 9 →
        (lastSpeaker s = none → round_robin_selector s = some "researcher") ∧
        (∀ sp, lastSpeaker s = some sp → sp ∉ rotation →
          round_robin_selector s = some "researcher") ∧
        (lastSpeaker s = some "researcher" → round_robin_selector s = some "analyst") ∧
        (lastSpeaker s = some "analyst" → round_robin_selector s = some "writer") ∧
        (lastSpeaker s = some "writer" → round_robin_selector s = some "researcher")) := by
  refine ⟨by decide, by decide, fun s => ?_⟩
  constructor
  · intro h
    simp [round_robin_selector, h]
  · intro h
    have h9 : ¬ 9 ≤ s.round_index := by omega
    refine ⟨fun hl => ?_, fun sp hl hmem => ?_, fun hl => ?_, fun hl => ?_, fun hl => ?_⟩
    · simp [round_robin_selector, h9, hl]
      rfl
    · simp only [round_robin_selector, h9, if_false, hl]
      rw [if_neg hmem]
      rfl
    · simp only [round_robin_selector, h9, if_false, hl]
      rw [if_pos (by decide : ("researcher" : String) ∈ rotation)]
      rfl
    · simp only [round_robin_selector, h9, if_false, hl]
      rw [if_pos (by decide : ("analyst" : String) ∈ rotation)]
      rfl
    · simp only [round_robin_selector, h9, if_false, hl]
      rw [if_pos (by decide : ("writer" : String) ∈ rotation)]
      rfl

/-- Witness for C2: the general clauses evaluated concretely — after the
nine traced turns the selector terminates, and after a lone researcher
turn it picks the analyst. -/
theorem round_robin_produces_three_cycles_then_none_witness :
    round_robin_selector (mkSnapshot
      ((["researcher", "analyst", "writer", "researcher", "analyst", "writer",
         "researcher", "analyst", "writer"]).map (fun n => GroupChatTurn.mk n ""))) = none ∧
    round_robin_selector (mkSnapshot [⟨"researcher", ""⟩]) = some "analyst" :=
  ⟨((round_robin_produces_three_cycles_then_none.2.2 (mkSnapshot
      ((["researcher", "analyst", "writer", "researcher", "analyst", "writer",
         "researcher", "analyst", "writer"]).map (fun n => GroupChatTurn.mk n "")))).1 (by decide)),
   ((round_robin_produces_three_cycles_then_none.2.2
      (mkSnapshot [⟨"researcher", ""⟩])).2 (by decide)).2.2.1 (by decide)⟩

/-- C3: For the debate selector with debaters optimist and pessimist,
moderator, and per-debater cap K = 3: starting from an empty history and
appending each chosen speaker before the next call, the produced sequence
is exactly optimist, pessimist, optimist, pessimist, optimist, pessimist,
moderator, and then the terminal signal; along this run each debater
speaks exactly 3 ≤ K times, the moderator exactly once (last, after both
caps are reached), and the total number of turns is 7 ≤ 2K + 1. -/
theorem debate_trace_alternates_then_moderator_then_none :
    selectorTrace debate_selector 10 [] =
      ["optimist", "pessimist", "optimist", "pessimist", "optimist", "pessimist",
       "moderator"] ∧
    debate_selector (mkSnapshot ((["optimist", "pessimist", "optimist", "pessimist",
      "optimist", "pessimist", "moderator"]).map (fun n => GroupChatTurn.mk n ""))) = none ∧
    (selectorTrace debate_selector 10 []).count "optimist" = 3 ∧
    (selectorTrace debate_selector 10 []).count "pessimist" = 3 ∧
    (selectorTrace debate_selector 10 []).count "moderator" = 1 ∧
    (selectorTrace debate_selector 10 []).length ≤ 7 := by
  refine ⟨by decide, by decide, by decide, by decide, by decide, by decide⟩

end MSAF
namespace MSAF

/-- C10: For every snapshot, each selector's return value is either the
terminal signal or one of that selector's configured participant
identifiers: round-robin within {researcher, analyst, writer}, debate
within {optimist, pessimist, moderator}, task-based within
{coordinator, code_specialist, data_specialist, design_specialist}. -/
theorem selector_results_stay_within_configuration (s : GroupChatStateSnapshot) :
    optWithin (round_robin_selector s) rotation = true ∧
    optWithin (debate_selector s) ["optimist", "pessimist", "moderator"] = true ∧
    optWithin (task_based_selector s) ("coordinator" :: specialistIds) = true := by
  refine ⟨?_, ?_, ?_⟩
  · unfold round_robin_selector
    split
    · rfl
    · split
      · rfl
      · split
        · exact rotation_cycle_mem _
        · rfl
  · unfold debate_selector
    dsimp only
    repeat' split
    all_goals rfl
  · unfold task_based_selector
    dsimp only
    repeat' split
    all_goals rfl

/-- Counterexample to C7: on a history whose last speaker "stranger" is
unrecognized, `round_robin_selector` does not return the terminal signal —
it restarts the rotation at "researcher". -/
theorem unknown_speaker_not_terminal_for_round_robin :
    lastSpeaker (mkSnapshot [⟨"stranger", ""⟩]) = some "stranger" ∧
    "stranger" ∉ rotation ∧
    round_robin_selector (mkSnapshot [⟨"stranger", ""⟩]) = some "researcher" ∧
    round_robin_selector (mkSnapshot [⟨"stranger", ""⟩]) ≠ none := by
  refine ⟨by decide, by decide, by decide, by decide⟩

/-- C7 (amended): a snapshot whose last speaker is unrecognized never
crashes any selector (each is total); `task_based_selector` returns the
terminal signal, while `round_robin_selector` restarts the rotation at
"researcher" until its round cap and `debate_selector` proceeds by its
phase rules (optimist while a debater is under cap, else the moderator
once, else the terminal signal). -/
theorem unknown_speaker_fail_safe (s : GroupChatStateSnapshot) (sp : String)
    (h : lastSpeaker s = some sp) :
    (sp ∉ rotation →
      (s.round_index < 9 → round_robin_selector s = some "researcher") ∧
      (9 ≤ s.round_index → round_robin_selector s = none)) ∧
    (sp ∉ ["optimist", "pessimist", "moderator"] →
      (speakerCount s.history "optimist" < 3 ∨ speakerCount s.history "pessimist" < 3 →
        debate_selector s = some "optimist") ∧
      (3 ≤ speakerCount s.history "optimist" → 3 ≤ speakerCount s.history "pessimist" →
        speakerCount s.history "moderator" = 0 → debate_selector s = some "moderator") ∧
      (3 ≤ speakerCount s.history "optimist" → 3 ≤ speakerCount s.history "pessimist" →
        speakerCount s.history "moderator" ≠ 0 → debate_selector s = none)) ∧
    (sp ∉ ("coordinator" :: specialistIds) → task_based_selector s = none) := by
  refine ⟨fun hmem => ⟨fun h9 => ?_, fun h9 => ?_⟩,
    fun hmem => ?_,
    fun hmem => ?_⟩
  · simp only [round_robin_selector, h]
    rw [if_neg (by omega), if_neg hmem]
    rfl
  · simp [round_robin_selector, h9]
  · simp only [List.mem_cons, List.mem_singleton, not_or] at hmem
    obtain ⟨h1, h2, h3⟩ := hmem
    refine ⟨fun hph => ?_, fun ho hp hm => ?_, fun ho hp hm => ?_⟩
    · unfold debate_selector
      dsimp only
      rw [if_pos hph, if_neg (by rw [h]; simp [h1]), if_neg (by rw [h]; simp [h2])]
    · unfold debate_selector
      dsimp only
      rw [if_neg (by omega), if_pos hm]
    · unfold debate_selector
      dsimp only
      rw [if_neg (by omega), if_neg hm]
  · simp only [List.mem_cons, not_or] at hmem
    obtain ⟨h1, h45⟩ := hmem
    unfold task_based_selector
    dsimp only
    split
    · rfl
    · rw [h]
      dsimp only
      rw [if_neg h1, if_neg (by simpa [specialistIds] using h45)]

/-- Witness for C7 (amended), at the concrete unknown speaker "stranger":
the task-based selector terminates, the round-robin selector restarts,
the debate selector opens with the optimist. -/
theorem unknown_speaker_fail_safe_witness :
    task_based_selector (mkSnapshot [⟨"stranger", ""⟩]) = none ∧
    round_robin_selector (mkSnapshot [⟨"stranger", ""⟩]) = some "researcher" ∧
    debate_selector (mkSnapshot [⟨"stranger", ""⟩]) = some "optimist" :=
  ⟨(unknown_speaker_fail_safe (mkSnapshot [⟨"stranger", ""⟩]) "stranger"
      (by decide)).2.2 (by decide),
   ((unknown_speaker_fail_safe (mkSnapshot [⟨"stranger", ""⟩]) "stranger"
      (by decide)).1 (by decide)).1 (by decide),
   ((unknown_speaker_fail_safe (mkSnapshot [⟨"stranger", ""⟩]) "stranger"
      (by decide)).2.1 (by decide)).1 (by decide)⟩

end MSAF
namespace MSAF

/-- Counterexample to C4: a snapshot whose last speaker is the coordinator
and whose history already contains two specialist turns — the selector
returns a specialist (the default, code_specialist), not the terminal
signal, so the cap is not enforced "regardless of coordinator state". -/
theorem specialist_cap_ignored_after_coordinator :
    (mkSnapshot [⟨"coordinator", ""⟩, ⟨"code_specialist", ""⟩, ⟨"coordinator", ""⟩,
      ⟨"data_specialist", ""⟩, ⟨"coordinator", ""⟩]).history.countP
        (fun t => specialistIds.contains t.speaker) = 2 ∧
    lastSpeaker (mkSnapshot [⟨"coordinator", ""⟩, ⟨"code_specialist", ""⟩,
      ⟨"coordinator", ""⟩, ⟨"data_specialist", ""⟩, ⟨"coordinator", ""⟩]) =
        some "coordinator" ∧
    task_based_selector (mkSnapshot [⟨"coordinator", ""⟩, ⟨"code_specialist", ""⟩,
      ⟨"coordinator", ""⟩, ⟨"data_specialist", ""⟩, ⟨"coordinator", ""⟩]) =
        some "code_specialist" ∧
    task_based_selector (mkSnapshot [⟨"coordinator", ""⟩, ⟨"code_specialist", ""⟩,
      ⟨"coordinator", ""⟩, ⟨"data_specialist", ""⟩, ⟨"coordinator", ""⟩]) ≠ none := by
  refine ⟨by decide, by decide, by decide, by decide⟩

/-- C4 (amended): the specialist cap P = 2 is enforced only when the last
speaker is a specialist: then the selector returns the terminal signal
once total specialist turns reach 2, and hands back to the coordinator
below the cap; when the last speaker is the coordinator (below the round
ceiling) the selector returns a specialist — never the coordinator and
never the terminal signal — so coordinator and specialists strictly
alternate. -/
theorem specialist_cap_on_specialist_turns (s : GroupChatStateSnapshot) (sp : String)
    (h : lastSpeaker s = some sp) :
    (sp ∈ specialistIds →
      2 ≤ s.history.countP (fun t => specialistIds.contains t.speaker) →
      task_based_selector s = none) ∧
    (sp ∈ specialistIds →
      s.history.countP (fun t => specialistIds.contains t.speaker) < 2 →
      s.round_index < 10 → task_based_selector s = some "coordinator") ∧
    (sp = "coordinator" → s.round_index < 10 →
      optWithin (task_based_selector s) specialistIds = true ∧
      task_based_selector s ≠ none) := by
  have hne : sp ∈ specialistIds → ¬ sp = "coordinator" := by
    intro hsp hc
    rw [hc] at hsp
    exact absurd hsp (by decide)
  refine ⟨fun hsp hcnt => ?_, fun hsp hcnt h10 => ?_, fun hc h10 => ?_⟩
  · unfold task_based_selector
    dsimp only
    split
    · rfl
    · rw [h]
      dsimp only
      rw [if_neg (hne hsp), if_pos hsp]
  · unfold task_based_selector
    dsimp only
    rw [if_neg (by omega), h]
    dsimp only
    rw [if_neg (hne hsp), if_pos hsp, if_neg (by omega)]
  · subst hc
    unfold task_based_selector
    dsimp only
    rw [if_neg (by omega), h]
    dsimp only
    rw [if_pos rfl]
    constructor
    · repeat' split
      all_goals rfl
    · repeat' split
      all_goals simp

/-- Witness for C4 (amended): once two specialists have contributed and a
specialist spoke last the selector terminates; below the cap it hands
back to the coordinator; after a coordinator turn it picks a specialist. -/
theorem specialist_cap_on_specialist_turns_witness :
    task_based_selector (mkSnapshot [⟨"coordinator", ""⟩, ⟨"code_specialist", ""⟩,
      ⟨"coordinator", ""⟩, ⟨"code_specialist", ""⟩]) = none ∧
    task_based_selector (mkSnapshot [⟨"coordinator", ""⟩, ⟨"code_specialist", ""⟩]) =
      some "coordinator" ∧
    optWithin (task_based_selector (mkSnapshot [⟨"coordinator", ""⟩])) specialistIds = true :=
  ⟨(specialist_cap_on_specialist_turns (mkSnapshot [⟨"coordinator", ""⟩,
      ⟨"code_specialist", ""⟩, ⟨"coordinator", ""⟩, ⟨"code_specialist", ""⟩])
      "code_specialist" (by decide)).1 (by decide) (by decide),
   (specialist_cap_on_specialist_turns (mkSnapshot [⟨"coordinator", ""⟩,
      ⟨"code_specialist", ""⟩]) "code_specialist" (by decide)).2.1 (by decide)
      (by decide) (by decide),
   ((specialist_cap_on_specialist_turns (mkSnapshot [⟨"coordinator", ""⟩])
      "coordinator" (by decide)).2.2 rfl (by decide)).1⟩

end MSAF
namespace MSAF

/-- C8: For the task-based selector below its round ceiling: an empty
history yields the coordinator; after a coordinator turn it inspects the
case-insensitive concatenation of the last three raw conversation
messages (`recentText`) against the trigger keywords in fixed priority
order — code/programming/python, then data/analysis/analytics, then
design/ui/ux — returning the first specialist whose keyword set matches,
and the default code_specialist when none match. -/
theorem coordinator_keyword_routing (s : GroupChatStateSnapshot)
    (h10 : s.round_index < 10) :
    (s.history = [] → task_based_selector s = some "coordinator") ∧
    (lastSpeaker s = some "coordinator" →
      ((strHasSub (recentText s.conversation) "code"
          || strHasSub (recentText s.conversation) "programming"
          || strHasSub (recentText s.conversation) "python") = true →
        task_based_selector s = some "code_specialist") ∧
      ((strHasSub (recentText s.conversation) "code"
          || strHasSub (recentText s.conversation) "programming"
          || strHasSub (recentText s.conversation) "python") = false →
        ((strHasSub (recentText s.conversation) "data"
            || strHasSub (recentText s.conversation) "analysis"
            || strHasSub (recentText s.conversation) "analytics") = true →
          task_based_selector s = some "data_specialist") ∧
        ((strHasSub (recentText s.conversation) "data"
            || strHasSub (recentText s.conversation) "analysis"
            || strHasSub (recentText s.conversation) "analytics") = false →
          ((strHasSub (recentText s.conversation) "design"
              || strHasSub (recentText s.conversation) "ui"
              || strHasSub (recentText s.conversation) "ux") = true →
            task_based_selector s = some "design_specialist") ∧
          ((strHasSub (recentText s.conversation) "design"
              || strHasSub (recentText s.conversation) "ui"
              || strHasSub (recentText s.conversation) "ux") = false →
            task_based_selector s = some "code_specialist")))) := by
  constructor
  · intro hh
    have hl : lastSpeaker s = none := by simp [lastSpeaker, hh]
    unfold task_based_selector
    dsimp only
    rw [if_neg (by omega), hl]
  · intro hl
    unfold task_based_selector
    dsimp only
    rw [if_neg (by omega), hl]
    dsimp only
    rw [if_pos rfl]
    refine ⟨fun hc => by rw [if_pos hc], fun hc => ?_⟩
    rw [if_neg (by simp [hc])]
    refine ⟨fun hd => by rw [if_pos hd], fun hd => ?_⟩
    rw [if_neg (by simp [hd])]
    exact ⟨fun hg => by rw [if_pos hg], fun hg => by rw [if_neg (by simp [hg])]⟩

/-- Witness for C8 at concrete conversations: an empty history opens with
the coordinator; "Necesito ayuda con Python" routes to code_specialist;
"Sales data analysis" routes to data_specialist; "Mejorar la UI" routes
to design_specialist; "hola" falls back to the default code_specialist. -/
theorem coordinator_keyword_routing_witness :
    task_based_selector (mkSnapshot []) = some "coordinator" ∧
    task_based_selector { mkSnapshot [⟨"coordinator", ""⟩] with
      conversation := [⟨"Necesito ayuda con Python"⟩] } = some "code_specialist" ∧
    task_based_selector { mkSnapshot [⟨"coordinator", ""⟩] with
      conversation := [⟨"Sales data analysis"⟩] } = some "data_specialist" ∧
    task_based_selector { mkSnapshot [⟨"coordinator", ""⟩] with
      conversation := [⟨"Mejorar la UI"⟩] } = some "design_specialist" ∧
    task_based_selector { mkSnapshot [⟨"coordinator", ""⟩] with
      conversation := [⟨"hola"⟩] } = some "code_specialist" :=
  ⟨(coordinator_keyword_routing (mkSnapshot []) (by decide)).1 rfl,
   ((coordinator_keyword_routing { mkSnapshot [⟨"coordinator", ""⟩] with
      conversation := [⟨"Necesito ayuda con Python"⟩] } (by decide)).2
      (by decide)).1 (by decide),
   (((coordinator_keyword_routing { mkSnapshot [⟨"coordinator", ""⟩] with
      conversation := [⟨"Sales data analysis"⟩] } (by decide)).2
      (by decide)).2 (by decide)).1 (by decide),
   ((((coordinator_keyword_routing { mkSnapshot [⟨"coordinator", ""⟩] with
      conversation := [⟨"Mejorar la UI"⟩] } (by decide)).2
      (by decide)).2 (by decide)).2 (by decide)).1 (by decide),
   ((((coordinator_keyword_routing { mkSnapshot [⟨"coordinator", ""⟩] with
      conversation := [⟨"hola"⟩] } (by decide)).2
      (by decide)).2 (by decide)).2 (by decide)).2 (by decide)⟩

end MSAF
namespace MSAF

/-! ## Approval flows (`025_approval_flows.py`)

`ApprovalDecision`, `ApprovalRequest` and `ApprovalManager` are embedded
with explicit state passing: every method that mutates the manager
returns the updated manager.  Python's identity-based `list.remove` is
modelled by `removeFirst` (structural first-occurrence removal; requests
are created fresh per call, so structural equality plays the role of
object identity).  The wall-clock `datetime` fields (`timestamp`,
`approved_at` and the timestamps inside result dictionaries) influence no
control flow and are omitted. -/

inductive ApprovalDecision where
  | APPROVED
  | REJECTED
  | TIMEOUT
deriving DecidableEq

/-- The `.value` string of each `ApprovalDecision` enum member. -/
def ApprovalDecision.value : ApprovalDecision → String
  | .APPROVED => "approved"
  | .REJECTED => "rejected"
  | .TIMEOUT => "timeout"

/-- Argument values stored in a request's `arguments` dictionary (the
source stores strings and floats). -/
inductive ArgValue where
  | str (s : String)
  | num (q : ℚ)
deriving DecidableEq

/-- Embedding of `ApprovalRequest` (025_approval_flows.py, lines
103–145), minus the wall-clock `timestamp`/`approved_at` fields.
`decision = none` is the pending state. -/
structure ApprovalRequest where
  tool_name : String
  arguments : List (String × ArgValue)
  description : String
  risk_level : String
  decision : Option ApprovalDecision := none
  approved_by : Option String := none
deriving DecidableEq

/-- Embedding of `ApprovalRequest.approve`. -/
def ApprovalRequest.approve (r : ApprovalRequest) (approver : String) : ApprovalRequest :=
  { r with decision := some .APPROVED, approved_by := some approver }

/-- Embedding of `ApprovalRequest.reject`. -/
def ApprovalRequest.reject (r : ApprovalRequest) (approver : String) : ApprovalRequest :=
  { r with decision := some .REJECTED, approved_by := some approver }

/-- Embedding of `ApprovalManager` state (025_approval_flows.py, lines
148–154). -/
structure ApprovalManager where
  pending_requests : List ApprovalRequest
  history : List ApprovalRequest
  auto_approve_mode : Bool
deriving DecidableEq

/-- First-occurrence removal, embedding Python `list.remove`. -/
def removeFirst : List ApprovalRequest → ApprovalRequest → List ApprovalRequest
  | [], _ => []
  | b :: t, a => if b = a then t else b :: removeFirst t a

/-- Embedding of `ApprovalManager.create_request` (lines 156–166): build
a pending request and append it to `pending_requests`. -/
def ApprovalManager.create_request (m : ApprovalManager) (tool_name : String)
    (arguments : List (String × ArgValue)) (description : String)
    (risk_level : String) : ApprovalRequest × ApprovalManager :=
  let request : ApprovalRequest :=
    { tool_name := tool_name, arguments := arguments,
      description := description, risk_level := risk_level }
  (request, { m with pending_requests := m.pending_requests ++ [request] })

/-- Embedding of `ApprovalManager.request_approval` (lines 168–208): the
decision is simulated — auto-approve mode approves as "demo_user";
otherwise low/medium risk is approved and anything else rejected by
"simulated_user".  The `timeout` parameter is accepted but, exactly as in
the source, never consulted (the source only prints it).  The resolved
request is removed from `pending_requests` and appended to `history`. -/
def ApprovalManager.request_approval (m : ApprovalManager) (request : ApprovalRequest)
    (_timeout : ℚ) : ApprovalDecision × ApprovalManager :=
  let decision : ApprovalDecision :=
    if m.auto_approve_mode then .APPROVED
    else if request.risk_level = "low" ∨ request.risk_level = "medium" then .APPROVED
    else .REJECTED
  let approver := if m.auto_approve_mode then "demo_user" else "simulated_user"
  let resolved :=
    match decision with
    | .APPROVED => request.approve approver
    | _ => request.reject approver
  (decision,
   { m with pending_requests := removeFirst m.pending_requests request,
            history := m.history ++ [resolved] })

/-- Result dictionary of the delete-user tool: the success and failure
dictionaries of the source, merged into one record with optional keys
(minus the wall-clock `deleted_at`). -/
structure DeleteOutcome where
  success : Bool
  message : Option String := none
  error : Option String := none
  user_id : String
deriving DecidableEq

/-- Embedding of `delete_user` (lines 220–236), the underlying
destructive operation. -/
def delete_user (user_id : String) : DeleteOutcome :=
  { success := true,
    message := some ("Usuario " ++ user_id ++ " eliminado exitosamente"),
    user_id := user_id }

/-- Embedding of `delete_user_with_approval` (lines 239–267).  The third
component counts how many times `delete_user` ran inside this call (the
approved branch runs it once, the other branch not at all); totality of
this function is the embedding's rendering of "no exception is raised". -/
def delete_user_with_approval (m : ApprovalManager) (user_id : String) :
    DeleteOutcome × ApprovalManager × Nat :=
  let created := m.create_request "delete_user" [("user_id", .str user_id)]
    ("Eliminar usuario " ++ user_id ++ " del sistema") "high"
  let resolved := created.2.request_approval created.1 30
  if resolved.1 = .APPROVED then
    (delete_user user_id, resolved.2, 1)
  else
    ({ success := false,
       error := some ("Operacion rechazada o timeout: " ++ resolved.1.value),
       user_id := user_id }, resolved.2, 0)

end MSAF
namespace MSAF

lemma removeFirst_append_singleton_length (l : List ApprovalRequest) (a : ApprovalRequest) :
    (removeFirst (l ++ [a]) a).length = l.length := by
  induction l with
  | nil => simp [removeFirst]
  | cons b t ih =>
    by_cases hb : b = a
    · simp [removeFirst, hb]
    · simp [removeFirst, hb, ih]

/-- C1: Each call of `delete_user_with_approval` creates exactly one
`ApprovalRequest` and, once the (simulated) decision resolves, appends
exactly that resolved request to the audit `history` regardless of
outcome, leaving the pending count unchanged; if the decision is
approved, `delete_user` runs exactly once and its result is returned; if
it is not approved, `delete_user` never runs and a structured failure
record carrying the decision kind is returned (the function is total, so
no exception escapes). -/
theorem delete_gate_audits_once_and_executes_only_on_approval
    (m : ApprovalManager) (uid : String) :
    (delete_user_with_approval m uid).2.1.history =
      m.history ++
        [if m.auto_approve_mode then
          ApprovalRequest.approve
            { tool_name := "delete_user", arguments := [("user_id", .str uid)],
              description := "Eliminar usuario " ++ uid ++ " del sistema",
              risk_level := "high" } "demo_user"
        else
          ApprovalRequest.reject
            { tool_name := "delete_user", arguments := [("user_id", .str uid)],
              description := "Eliminar usuario " ++ uid ++ " del sistema",
              risk_level := "high" } "simulated_user"] ∧
    (delete_user_with_approval m uid).2.1.pending_requests.length =
      m.pending_requests.length ∧
    ((if m.auto_approve_mode then ApprovalDecision.APPROVED else ApprovalDecision.REJECTED) =
        ApprovalDecision.APPROVED →
      (delete_user_with_approval m uid).2.2 = 1 ∧
      (delete_user_with_approval m uid).1 = delete_user uid) ∧
    ((if m.auto_approve_mode then ApprovalDecision.APPROVED else ApprovalDecision.REJECTED) ≠
        ApprovalDecision.APPROVED →
      (delete_user_with_approval m uid).2.2 = 0 ∧
      (delete_user_with_approval m uid).1 =
        { success := false,
          error := some ("Operacion rechazada o timeout: rejected"),
          user_id := uid }) := by
  by_cases hmode : m.auto_approve_mode <;>
    simp [delete_user_with_approval, ApprovalManager.create_request,
      ApprovalManager.request_approval, hmode, removeFirst_append_singleton_length,
      ApprovalDecision.value]

/-- Witness for C1: with auto-approval the operation runs exactly once
and returns the delete result; without it (risk "high" is rejected) the
operation never runs. -/
theorem delete_gate_audits_once_and_executes_only_on_approval_witness :
    ((delete_user_with_approval ⟨[], [], true⟩ "user_12345").2.2 = 1 ∧
      (delete_user_with_approval ⟨[], [], true⟩ "user_12345").1 =
        delete_user "user_12345") ∧
    ((delete_user_with_approval ⟨[], [], false⟩ "user_12345").2.2 = 0 ∧
      (delete_user_with_approval ⟨[], [], false⟩ "user_12345").1 =
        { success := false,
          error := some ("Operacion rechazada o timeout: rejected"),
          user_id := "user_12345" }) :=
  ⟨(delete_gate_audits_once_and_executes_only_on_approval
      ⟨[], [], true⟩ "user_12345").2.2.1 (by decide),
   (delete_gate_audits_once_and_executes_only_on_approval
      ⟨[], [], false⟩ "user_12345").2.2.2 (by decide)⟩

end MSAF
namespace MSAF

/-- Rendering of Python's float interpolation in the source's f-strings
(`f"...${amount}..."`), via ℚ; the numeral formatting differs from
Python's float `repr` (e.g. "500" vs "500.0") and no claim inspects it. -/
def fmtAmount (q : ℚ) : String := toString q

/-- Result dictionary of `transfer_money_conditional`: the three result
dictionaries of the source merged into one record with optional keys
(minus the wall-clock `timestamp`). -/
structure TransferOutcome where
  success : Bool
  message : Option String := none
  error : Option String := none
  from_account : Option String := none
  to_account : Option String := none
  amount : ℚ
  approved : Option String := none
  risk_level : Option String := none
deriving DecidableEq

/-- Embedding of `transfer_money_conditional` (025_approval_flows.py,
lines 283–347): amounts ≤ 100 execute immediately ("auto" approval, no
request); larger amounts create a request at risk "high" (> 1000) or
"medium" (otherwise) and go through `request_approval`. -/
def transfer_money_conditional (m : ApprovalManager) (from_account to_account : String)
    (amount : ℚ) : TransferOutcome × ApprovalManager :=
  let requires_approval := 100 < amount
  if ¬ requires_approval then
    ({ success := true,
       message := some ("Transferencia de $" ++ fmtAmount amount ++ " completada"),
       from_account := some from_account, to_account := some to_account,
       amount := amount, approved := some "auto" }, m)
  else
    let risk_level := if 1000 < amount then "high" else "medium"
    let created := m.create_request "transfer_money"
      [("from", .str from_account), ("to", .str to_account), ("amount", .num amount)]
      ("Transferir $" ++ fmtAmount amount ++ " de " ++ from_account ++ " a " ++ to_account)
      risk_level
    let resolved := created.2.request_approval created.1 30
    if resolved.1 = .APPROVED then
      ({ success := true,
         message := some ("Transferencia de $" ++ fmtAmount amount ++ " completada"),
         from_account := some from_account, to_account := some to_account,
         amount := amount, approved := some "manual",
         risk_level := some risk_level }, resolved.2)
    else
      ({ success := false,
         error := some ("Transferencia rechazada: " ++ resolved.1.value),
         amount := amount }, resolved.2)

/-- C6: For the conditional money-transfer gate: every amount ≤ 100
executes immediately with a success result marked "auto" and no
`ApprovalRequest` is created (the manager is untouched); every
amount > 100 creates exactly one `ApprovalRequest` — appended, resolved,
to the audit history — whose `risk_level` is "high" when amount > 1000
and "medium" when 100 < amount ≤ 1000. -/
theorem conditional_transfer_gates_by_amount (m : ApprovalManager)
    (f t : String) (amount : ℚ) :
    (amount ≤ 100 →
      (transfer_money_conditional m f t amount).2 = m ∧
      (transfer_money_conditional m f t amount).1.success = true ∧
      (transfer_money_conditional m f t amount).1.approved = some "auto") ∧
    (100 < amount →
      ∃ resolved : ApprovalRequest,
        (transfer_money_conditional m f t amount).2.history = m.history ++ [resolved] ∧
        resolved.tool_name = "transfer_money" ∧
        resolved.risk_level = (if 1000 < amount then "high" else "medium") ∧
        (transfer_money_conditional m f t amount).2.pending_requests.length =
          m.pending_requests.length) := by
  constructor
  · intro hle
    have hreq : ¬ (100 < amount) := not_lt.mpr hle
    simp [transfer_money_conditional, hreq]
  · intro hgt
    by_cases hmode : m.auto_approve_mode <;> by_cases hbig : 1000 < amount
    · exact ⟨ApprovalRequest.approve
        { tool_name := "transfer_money",
          arguments := [("from", .str f), ("to", .str t), ("amount", .num amount)],
          description := "Transferir $" ++ fmtAmount amount ++ " de " ++ f ++ " a " ++ t,
          risk_level := "high" } "demo_user",
        by simp [transfer_money_conditional, hgt, hbig, hmode,
          ApprovalManager.create_request, ApprovalManager.request_approval,
          ApprovalRequest.approve, ApprovalRequest.reject,
          removeFirst_append_singleton_length]⟩
    · exact ⟨ApprovalRequest.approve
        { tool_name := "transfer_money",
          arguments := [("from", .str f), ("to", .str t), ("amount", .num amount)],
          description := "Transferir $" ++ fmtAmount amount ++ " de " ++ f ++ " a " ++ t,
          risk_level := "medium" } "demo_user",
        by simp [transfer_money_conditional, hgt, hbig, hmode,
          ApprovalManager.create_request, ApprovalManager.request_approval,
          ApprovalRequest.approve, ApprovalRequest.reject,
          removeFirst_append_singleton_length]⟩
    · exact ⟨ApprovalRequest.reject
        { tool_name := "transfer_money",
          arguments := [("from", .str f), ("to", .str t), ("amount", .num amount)],
          description := "Transferir $" ++ fmtAmount amount ++ " de " ++ f ++ " a " ++ t,
          risk_level := "high" } "simulated_user",
        by simp [transfer_money_conditional, hgt, hbig, hmode,
          ApprovalManager.create_request, ApprovalManager.request_approval,
          ApprovalRequest.approve, ApprovalRequest.reject,
          removeFirst_append_singleton_length]⟩
    · exact ⟨ApprovalRequest.approve
        { tool_name := "transfer_money",
          arguments := [("from", .str f), ("to", .str t), ("amount", .num amount)],
          description := "Transferir $" ++ fmtAmount amount ++ " de " ++ f ++ " a " ++ t,
          risk_level := "medium" } "simulated_user",
        by simp [transfer_money_conditional, hgt, hbig, hmode,
          ApprovalManager.create_request, ApprovalManager.request_approval,
          ApprovalRequest.approve, ApprovalRequest.reject,
          removeFirst_append_singleton_length]⟩

/-- Witness for C6 at the claim's example amounts: 50 is auto-approved
with no request, 500 creates a "medium"-risk request, 5000 a
"high"-risk one. -/
theorem conditional_transfer_gates_by_amount_witness :
    ((transfer_money_conditional ⟨[], [], true⟩ "ACC001" "ACC002" 50).2 =
        (⟨[], [], true⟩ : ApprovalManager) ∧
      (transfer_money_conditional ⟨[], [], true⟩ "ACC001" "ACC002" 50).1.success = true ∧
      (transfer_money_conditional ⟨[], [], true⟩ "ACC001" "ACC002" 50).1.approved =
        some "auto") ∧
    (∃ resolved : ApprovalRequest,
      (transfer_money_conditional ⟨[], [], true⟩ "ACC001" "ACC002" 500).2.history =
        (⟨[], [], true⟩ : ApprovalManager).history ++ [resolved] ∧
      resolved.tool_name = "transfer_money" ∧
      resolved.risk_level = (if (1000 : ℚ) < 500 then "high" else "medium") ∧
      (transfer_money_conditional ⟨[], [], true⟩ "ACC001" "ACC002" 500).2.pending_requests.length =
        (⟨[], [], true⟩ : ApprovalManager).pending_requests.length) ∧
    (∃ resolved : ApprovalRequest,
      (transfer_money_conditional ⟨[], [], true⟩ "ACC001" "ACC002" 5000).2.history =
        (⟨[], [], true⟩ : ApprovalManager).history ++ [resolved] ∧
      resolved.tool_name = "transfer_money" ∧
      resolved.risk_level = (if (1000 : ℚ) < 5000 then "high" else "medium") ∧
      (transfer_money_conditional ⟨[], [], true⟩ "ACC001" "ACC002" 5000).2.pending_requests.length =
        (⟨[], [], true⟩ : ApprovalManager).pending_requests.length) :=
  ⟨(conditional_transfer_gates_by_amount ⟨[], [], true⟩ "ACC001" "ACC002" 50).1
      (by norm_num),
   (conditional_transfer_gates_by_amount ⟨[], [], true⟩ "ACC001" "ACC002" 500).2
      (by norm_num),
   (conditional_transfer_gates_by_amount ⟨[], [], true⟩ "ACC001" "ACC002" 5000).2
      (by norm_num)⟩

end MSAF
namespace MSAF

/-- The source's `request_approval` never consults its timeout argument:
two calls differing only in the timeout are identical.  This is why the
timeout behavior of C5 must be modelled from the spec (see
`resolve_decision` below). -/
lemma request_approval_ignores_timeout (m : ApprovalManager) (r : ApprovalRequest)
    (t1 t2 : ℚ) : m.request_approval r t1 = m.request_approval r t2 := rfl

/-- The external approver's possible decisions in the spec's
wait-for-decision-or-timeout race. -/
inductive SignalKind where
  | approve
  | reject
deriving DecidableEq

/-- Modelled from the spec: the source declares the TIMEOUT decision and
accepts a `timeout` parameter but never races the decision signal against
the clock (the demo simulates the decision after a fixed sleep, and
TIMEOUT is unreachable).  This models the missing wait step of §4.4/§5:
`signal` is the external decision together with its arrival time, in the
same wall-clock seconds as `timeout`; a missing or late signal resolves
to TIMEOUT. -/
def resolve_decision (signal : Option (ℚ × SignalKind)) (timeout : ℚ) : ApprovalDecision :=
  match signal with
  | none => .TIMEOUT
  | some (t, k) =>
    if t ≤ timeout then
      match k with
      | .approve => .APPROVED
      | .reject => .REJECTED
    else .TIMEOUT

/-- Modelled from the spec: `request_approval` with the timeout race in
place of the source's simulated decision; on timeout the request resolves
with no approver and is still moved from the pending set into the audit
history. -/
def request_approval_with_timeout (m : ApprovalManager) (request : ApprovalRequest)
    (timeout : ℚ) (signal : Option (ℚ × SignalKind)) :
    ApprovalDecision × ApprovalManager :=
  let decision := resolve_decision signal timeout
  let resolved :=
    match decision with
    | .APPROVED => request.approve "user"
    | .REJECTED => request.reject "user"
    | .TIMEOUT => { request with decision := some .TIMEOUT }
  (decision,
   { m with pending_requests := removeFirst m.pending_requests request,
            history := m.history ++ [resolved] })

/-- Modelled from the spec: `delete_user_with_approval` driven by the
timeout-aware gate instead of the simulated one; as in
`delete_user_with_approval`, the final component counts executions of the
underlying `delete_user` operation. -/
def delete_user_with_approval_timeout (m : ApprovalManager) (user_id : String)
    (timeout : ℚ) (signal : Option (ℚ × SignalKind)) :
    DeleteOutcome × ApprovalManager × Nat :=
  let created := m.create_request "delete_user" [("user_id", .str user_id)]
    ("Eliminar usuario " ++ user_id ++ " del sistema") "high"
  let resolved := request_approval_with_timeout created.2 created.1 timeout signal
  if resolved.1 = .APPROVED then
    (delete_user user_id, resolved.2, 1)
  else
    ({ success := false,
       error := some ("Operacion rechazada o timeout: " ++ resolved.1.value),
       user_id := user_id }, resolved.2, 0)

/-- C5: For every approval request whose decision signal does not arrive
within the configured timeout (it never arrives, or arrives strictly
after `timeout`): the request resolves to the TIMEOUT decision — not
REJECTED — the underlying operation never executes, and the audit history
records the request with the TIMEOUT decision. -/
theorem approval_timeout_resolves_timed_out (m : ApprovalManager) (uid : String)
    (timeout : ℚ) (signal : Option (ℚ × SignalKind))
    (h : ∀ t k, signal = some (t, k) → timeout < t) :
    (delete_user_with_approval_timeout m uid timeout signal).2.2 = 0 ∧
    (delete_user_with_approval_timeout m uid timeout signal).2.1.history =
      m.history ++
        [{ tool_name := "delete_user", arguments := [("user_id", .str uid)],
           description := "Eliminar usuario " ++ uid ++ " del sistema",
           risk_level := "high", decision := some ApprovalDecision.TIMEOUT,
           approved_by := none }] ∧
    some ApprovalDecision.TIMEOUT ≠ some ApprovalDecision.REJECTED ∧
    (delete_user_with_approval_timeout m uid timeout signal).1 =
      { success := false,
        error := some ("Operacion rechazada o timeout: timeout"),
        user_id := uid } := by
  have hd : resolve_decision signal timeout = .TIMEOUT := by
    cases signal with
    | none => rfl
    | some p =>
      obtain ⟨t, k⟩ := p
      have hlt := h t k rfl
      simp [resolve_decision, not_le.mpr hlt]
  simp [delete_user_with_approval_timeout, request_approval_with_timeout, hd,
    ApprovalManager.create_request, removeFirst_append_singleton_length,
    ApprovalDecision.value]

/-- Witness for C5: with a 30-second timeout and no decision signal at
all, the operation never runs and the audit history records TIMEOUT. -/
theorem approval_timeout_resolves_timed_out_witness :
    (delete_user_with_approval_timeout ⟨[], [], false⟩ "user_12345" 30 none).2.2 = 0 ∧
    (delete_user_with_approval_timeout ⟨[], [], false⟩ "user_12345" 30 none).2.1.history =
      (⟨[], [], false⟩ : ApprovalManager).history ++
        [{ tool_name := "delete_user", arguments := [("user_id", .str "user_12345")],
           description := "Eliminar usuario " ++ "user_12345" ++ " del sistema",
           risk_level := "high", decision := some ApprovalDecision.TIMEOUT,
           approved_by := none }] ∧
    some ApprovalDecision.TIMEOUT ≠ some ApprovalDecision.REJECTED ∧
    (delete_user_with_approval_timeout ⟨[], [], false⟩ "user_12345" 30 none).1 =
      { success := false,
        error := some ("Operacion rechazada o timeout: timeout"),
        user_id := "user_12345" } :=
  approval_timeout_resolves_timed_out ⟨[], [], false⟩ "user_12345" 30 none
    (fun _ _ hk => nomatch hk)

end MSAF
namespace MSAF

/-! ## Audit reporting (`ApprovalAuditor.generate_report`, lines 570–606)

The Python dict `by_risk` preserves first-insertion order; it is embedded
as an association list built by `bumpRisk`/`buildByRisk`.  The source's
`approval_rate` is the string `f"{(approved / total * 100):.1f}%"`; the
model keeps the unrounded percentage value `approved / total * 100`
(formatting is presentation only and no claim inspects it). -/

structure RiskStats where
  total : Nat
  approved : Nat
  rejected : Nat
deriving DecidableEq

/-- One loop iteration of the source's `by_risk` accumulation. -/
def bumpRisk (acc : List (String × RiskStats)) (risk : String)
    (dec : Option ApprovalDecision) : List (String × RiskStats) :=
  match acc with
  | [] =>
    [(risk, { total := 1,
              approved := if dec = some .APPROVED then 1 else 0,
              rejected := if dec = some .REJECTED then 1 else 0 })]
  | (k, st) :: rest =>
    if k = risk then
      (k, { total := st.total + 1,
            approved := st.approved + (if dec = some .APPROVED then 1 else 0),
            rejected := st.rejected + (if dec = some .REJECTED then 1 else 0) }) :: rest
    else
      (k, st) :: bumpRisk rest risk dec

/-- The source's `by_risk` dictionary over the whole history. -/
def buildByRisk (history : List ApprovalRequest) : List (String × RiskStats) :=
  history.foldl (fun acc r => bumpRisk acc r.risk_level r.decision) []

/-- The two dictionary shapes `generate_report` can return: the early
return for an empty history (total plus a message, nothing else), and the
full report. -/
inductive AuditReport where
  | empty (total_requests : Nat) (message : String)
  | full (total_requests approved rejected timeout : Nat)
      (approval_rate_percent : ℚ)
      (by_risk_level : List (String × RiskStats))
      (recent_requests : List ApprovalRequest)
deriving DecidableEq

/-- Embedding of `ApprovalAuditor.generate_report` over the manager's
recorded history. -/
def generate_report (history : List ApprovalRequest) : AuditReport :=
  match history with
  | [] => AuditReport.empty 0 "No hay solicitudes en el historial"
  | _ :: _ =>
    AuditReport.full history.length
      (history.countP (fun r => decide (r.decision = some .APPROVED)))
      (history.countP (fun r => decide (r.decision = some .REJECTED)))
      (history.countP (fun r => decide (r.decision = some .TIMEOUT)))
      (((history.countP (fun r => decide (r.decision = some .APPROVED)) : ℚ) /
        (history.length : ℚ)) * 100)
      (buildByRisk history)
      (history.drop (history.length - 5))

/-- A `generate_report` call on the auditor: it reads the manager's
history and mutates nothing, hence returns the manager unchanged. -/
def generate_report_call (m : ApprovalManager) : AuditReport × ApprovalManager :=
  (generate_report m.history, m)

/-- The approval-rate field of a report, when the report carries one. -/
def approvalRateOf : AuditReport → Option ℚ
  | .empty _ _ => none
  | .full _ _ _ _ rate _ _ => some rate

/-- Counterexample to C9: on an empty history `generate_report` returns
the early total-0 report with a message and no approval-rate field at
all — the approval rate is not 0, it is absent (though indeed no division
error occurs, the function being total). -/
theorem empty_history_report_has_no_rate :
    generate_report [] = AuditReport.empty 0 "No hay solicitudes en el historial" ∧
    approvalRateOf (generate_report []) = none ∧
    approvalRateOf (generate_report []) ≠ some 0 := by
  refine ⟨rfl, rfl, by decide⟩

lemma countP_decisions_le (l : List ApprovalRequest) :
    l.countP (fun r => decide (r.decision = some .APPROVED)) +
      l.countP (fun r => decide (r.decision = some .REJECTED)) +
      l.countP (fun r => decide (r.decision = some .TIMEOUT)) ≤ l.length := by
  induction l with
  | nil => simp
  | cons a t ih =>
    rcases ha : a.decision with _ | d
    · simp [List.countP_cons, ha]
      omega
    · cases d <;> simp [List.countP_cons, ha] <;> omega

lemma countP_decisions_eq (l : List ApprovalRequest)
    (h : ∀ r ∈ l, r.decision ≠ none) :
    l.countP (fun r => decide (r.decision = some .APPROVED)) +
      l.countP (fun r => decide (r.decision = some .REJECTED)) +
      l.countP (fun r => decide (r.decision = some .TIMEOUT)) = l.length := by
  induction l with
  | nil => simp
  | cons a t ih =>
    have ha0 := h a (List.mem_cons_self a t)
    have ht : ∀ r ∈ t, r.decision ≠ none := fun r hr => h r (List.mem_cons_of_mem a hr)
    have ih2 := ih ht
    rcases ha : a.decision with _ | d
    · exact absurd ha ha0
    · cases d <;> simp [List.countP_cons, ha] <;> omega

/-- C9 (amended): `generate_report` is a pure function of the recorded
history — it leaves the manager untouched and two calls with no
intervening record are identical.  On a non-empty history it returns the
total, the per-decision counts (which partition the total once every
record is resolved, and never exceed it), the by-risk breakdown and the
approval rate `approved / total` as a percentage; on an empty history it
returns the total-0 report with a message, omitting the rate — no
division error in either case. -/
theorem report_pure_function_of_history (m : ApprovalManager) :
    (generate_report_call m).2 = m ∧
    (generate_report_call ((generate_report_call m).2)).1 = (generate_report_call m).1 ∧
    (m.history = [] →
      (generate_report_call m).1 =
        AuditReport.empty 0 "No hay solicitudes en el historial") ∧
    (m.history ≠ [] →
      (generate_report_call m).1 = AuditReport.full m.history.length
        (m.history.countP (fun r => decide (r.decision = some .APPROVED)))
        (m.history.countP (fun r => decide (r.decision = some .REJECTED)))
        (m.history.countP (fun r => decide (r.decision = some .TIMEOUT)))
        (((m.history.countP (fun r => decide (r.decision = some .APPROVED)) : ℚ) /
          (m.history.length : ℚ)) * 100)
        (buildByRisk m.history)
        (m.history.drop (m.history.length - 5))) ∧
    (m.history.countP (fun r => decide (r.decision = some .APPROVED)) +
      m.history.countP (fun r => decide (r.decision = some .REJECTED)) +
      m.history.countP (fun r => decide (r.decision = some .TIMEOUT)) ≤
        m.history.length) ∧
    ((∀ r ∈ m.history, r.decision ≠ none) →
      m.history.countP (fun r => decide (r.decision = some .APPROVED)) +
        m.history.countP (fun r => decide (r.decision = some .REJECTED)) +
        m.history.countP (fun r => decide (r.decision = some .TIMEOUT)) =
          m.history.length) := by
  refine ⟨rfl, rfl, fun hh => ?_, fun hh => ?_, countP_decisions_le _,
    countP_decisions_eq _⟩
  · simp [generate_report_call, generate_report, hh]
  · rcases he : m.history with _ | ⟨a, t⟩
    · exact absurd he hh
    · simp [generate_report_call, generate_report, he]

/-- A concrete resolved two-request history for the C9 witness. -/
def auditSample : List ApprovalRequest :=
  [{ tool_name := "delete_user", arguments := [("user_id", .str "u1")],
     description := "Eliminar usuario u1 del sistema", risk_level := "high",
     decision := some .APPROVED, approved_by := some "demo_user" },
   { tool_name := "transfer_money", arguments := [("amount", .num 500)],
     description := "Transferir $500 de A a B", risk_level := "medium",
     decision := some .REJECTED, approved_by := some "simulated_user" }]

/-- Witness for C9 (amended): the empty-history early return, the full
report on a concrete resolved two-request history, and the partition of
its total by the per-decision counts. -/
theorem report_pure_function_of_history_witness :
    (generate_report_call ⟨[], [], false⟩).1 =
      AuditReport.empty 0 "No hay solicitudes en el historial" ∧
    (generate_report_call ⟨[], auditSample, false⟩).1 =
      AuditReport.full (⟨[], auditSample, false⟩ : ApprovalManager).history.length
        ((⟨[], auditSample, false⟩ : ApprovalManager).history.countP
          (fun r => decide (r.decision = some .APPROVED)))
        ((⟨[], auditSample, false⟩ : ApprovalManager).history.countP
          (fun r => decide (r.decision = some .REJECTED)))
        ((⟨[], auditSample, false⟩ : ApprovalManager).history.countP
          (fun r => decide (r.decision = some .TIMEOUT)))
        ((((⟨[], auditSample, false⟩ : ApprovalManager).history.countP
            (fun r => decide (r.decision = some .APPROVED)) : ℚ) /
          ((⟨[], auditSample, false⟩ : ApprovalManager).history.length : ℚ)) * 100)
        (buildByRisk (⟨[], auditSample, false⟩ : ApprovalManager).history)
        ((⟨[], auditSample, false⟩ : ApprovalManager).history.drop
          ((⟨[], auditSample, false⟩ : ApprovalManager).history.length - 5)) ∧
    (⟨[], auditSample, false⟩ : ApprovalManager).history.countP
        (fun r => decide (r.decision = some .APPROVED)) +
      (⟨[], auditSample, false⟩ : ApprovalManager).history.countP
        (fun r => decide (r.decision = some .REJECTED)) +
      (⟨[], auditSample, false⟩ : ApprovalManager).history.countP
        (fun r => decide (r.decision = some .TIMEOUT)) =
      (⟨[], auditSample, false⟩ : ApprovalManager).history.length :=
  ⟨(report_pure_function_of_history ⟨[], [], false⟩).2.2.1 rfl,
   (report_pure_function_of_history ⟨[], auditSample, false⟩).2.2.2.1 (by decide),
   (report_pure_function_of_history ⟨[], auditSample, false⟩).2.2.2.2.2 (by decide)⟩

end MSAF
